import Mathlib

/-!
Formal model of the BookReviewsPlatform backend (Express + Mongoose).

The development shallowly embeds the data model (User, Book, Review with
soft-delete flags), the Mongoose virtuals (`averageRating`, `reviewCount`,
`likeCount`), the `auth` middleware, and the route handlers of
`bookRoutes`, `reviewRoutes`, `authRoutes` and `userRoutes` that the
verified properties are about.

Conventions:
- Mongo ObjectIds are modelled as `Nat` identifiers.
- Timestamps (`createdAt`) are `Nat`.
- The derived average rating is carried in tenths (an exact `Nat`), so the
  JavaScript value `Math.round((sum / n) * 10) / 10` is modelled as the
  integer `Math.round((sum / n) * 10)`, i.e. `⌊(20*sum + n) / (2*n)⌋`
  (round-half-up of `10*sum/n`, all quantities nonnegative).
- Collections are `List`s in insertion order; Mongo queries become
  `List.filter` / `List.find?`; a `.sort()` on a query or a JavaScript
  `Array.prototype.sort` (stable since ES2019) is modelled by the stable
  insertion sort `sortLe` below.  For a comparator that is a total
  preorder the stable sorted permutation is unique, so any stable sort
  models both faithfully.
-/

/-- Case-sensitive list prefix test on characters. -/
def isPrefixB : List Char → List Char → Bool
  | [], _ => true
  | _ :: _, [] => false
  | a :: as, b :: bs => a == b && isPrefixB as bs

/-- Case-sensitive list infix test on characters. -/
def isInfixB (pat : List Char) : List Char → Bool
  | [] => pat.isEmpty
  | c :: rest => isPrefixB pat (c :: rest) || isInfixB pat rest

/-- Case-insensitive substring containment: models a MongoDB
`{ $regex: pat, $options: 'i' }` match of a plain (regex-free) pattern. -/
def containsCI (hay pat : String) : Bool :=
  isInfixB pat.toLower.toList hay.toLower.toList

/-- Boolean string order used to model JavaScript `Array.prototype.sort()`
default lexicographic comparison and Mongo string sort. -/
def strLe (a b : String) : Bool := decide (a < b) || a == b

/-- Stable insert for `sortLe`: places `x` before the first element `y`
with `le x y`; elements equal under the preorder keep list order. -/
def insertLe (le : α → α → Bool) (x : α) : List α → List α
  | [] => [x]
  | y :: ys => if le x y then x :: y :: ys else y :: insertLe le x ys

/-- Stable insertion sort; models stable sorts (JS `sort`, Mongo sort with
a deterministic tie-break) for a total preorder comparator. -/
def sortLe (le : α → α → Bool) : List α → List α
  | [] => []
  | x :: xs => insertLe le x (sortLe le xs)

theorem length_insertLe (le : α → α → Bool) (x : α) (l : List α) :
    (insertLe le x l).length = l.length + 1 := by
  induction l with
  | nil => rfl
  | cons y ys ih =>
    simp only [insertLe]
    by_cases h : le x y = true
    · simp [h]
    · simp [h, ih]

theorem length_sortLe (le : α → α → Bool) (l : List α) :
    (sortLe le l).length = l.length := by
  induction l with
  | nil => rfl
  | cons x xs ih => simp [sortLe, length_insertLe, ih]

theorem mem_insertLe (le : α → α → Bool) (x : α) (l : List α) (a : α) :
    a ∈ insertLe le x l ↔ a = x ∨ a ∈ l := by
  induction l with
  | nil => simp [insertLe]
  | cons y ys ih =>
    simp only [insertLe]
    by_cases h : le x y = true
    · simp [h]
    · simp [h, ih]
      tauto

theorem mem_sortLe (le : α → α → Bool) (l : List α) (a : α) :
    a ∈ sortLe le l ↔ a ∈ l := by
  induction l with
  | nil => simp [sortLe]
  | cons x xs ih => simp [sortLe, mem_insertLe, ih]

theorem perm_insertLe (le : α → α → Bool) (x : α) (l : List α) :
    (insertLe le x l).Perm (x :: l) := by
  induction l with
  | nil => simp [insertLe]
  | cons y ys ih =>
    simp only [insertLe]
    by_cases h : le x y = true
    · rw [if_pos h]
    · rw [if_neg h]
      exact (ih.cons y).trans (List.Perm.swap x y ys)

theorem perm_sortLe (le : α → α → Bool) (l : List α) :
    (sortLe le l).Perm l := by
  induction l with
  | nil => simp [sortLe]
  | cons x xs ih => exact (perm_insertLe le x (sortLe le xs)).trans (ih.cons x)

theorem pairwise_insertLe (le : α → α → Bool)
    (htrans : ∀ a b c, le a b = true → le b c = true → le a c = true)
    (htot : ∀ a b, le a b || le b a)
    (x : α) (l : List α) (h : l.Pairwise (fun a b => le a b = true)) :
    (insertLe le x l).Pairwise (fun a b => le a b = true) := by
  induction l with
  | nil => simp [insertLe]
  | cons y ys ih =>
    simp only [insertLe]
    rcases List.pairwise_cons.mp h with ⟨hy, hys⟩
    by_cases hxy : le x y = true
    · rw [if_pos hxy]
      refine List.pairwise_cons.mpr ⟨?_, h⟩
      intro b hb
      rcases hb with _ | hb
      · exact hxy
      · exact htrans x y b hxy (hy b (by assumption))
    · rw [if_neg hxy]
      refine List.pairwise_cons.mpr ⟨?_, ih hys⟩
      intro b hb
      rw [mem_insertLe] at hb
      rcases hb with hb | hb
      · rw [hb]
        have := htot x y
        simp [hxy] at this
        exact this
      · exact hy b hb

theorem pairwise_sortLe (le : α → α → Bool)
    (htrans : ∀ a b c, le a b = true → le b c = true → le a c = true)
    (htot : ∀ a b, le a b || le b a) (l : List α) :
    (sortLe le l).Pairwise (fun a b => le a b = true) := by
  induction l with
  | nil => simp [sortLe]
  | cons x xs ih => exact pairwise_insertLe le htrans htot x (sortLe le xs) ih

/-! ## Data model (src/Backend/src/models) -/

/-- User document (`models/User.ts`): identity with soft-delete flag. -/
structure User where
  id : Nat
  name : String
  email : String
  bio : String
  isActive : Bool
  deriving DecidableEq

/-- Book document (`models/Book.ts`): catalog entry; `addedBy` is the
owning user's id; `isActive` is the soft-delete flag; `createdAt` the
Mongo timestamp. -/
structure Book where
  id : Nat
  title : String
  author : String
  description : String
  genre : String
  publishedYear : Nat
  tags : List String
  addedBy : Nat
  isActive : Bool
  createdAt : Nat
  deriving DecidableEq

/-- Review document (`models/Review.ts`): `likes` is the liker id array,
`isActive` the soft-delete flag. -/
structure Review where
  id : Nat
  bookId : Nat
  userId : Nat
  rating : Nat
  reviewText : String
  title : Option String
  likes : List Nat
  isActive : Bool
  createdAt : Nat
  deriving DecidableEq

/-- The persistent store: the three Mongo collections in insertion order. -/
structure Store where
  users : List User
  books : List Book
  reviews : List Review
  deriving DecidableEq

/-! ## Derived (virtual) fields -/

/-- The `likeCount` virtual of `reviewSchema`. -/
def likeCount (r : Review) : Nat := r.likes.length

/-- The `reviews` virtual of `bookSchema` as resolved by
`populate('reviews')`: every Review whose `bookId` references the book.
No route passes a `match` option, so soft-deleted reviews are included. -/
def populatedReviews (reviews : List Review) (b : Book) : List Review :=
  reviews.filter (fun r => r.bookId == b.id)

/-- JavaScript `Math.round((sum / n) * 10)`: round-half-up of `10*sum/n`
for nonnegative `sum` and positive `n`, i.e. `⌊(20*sum + n) / (2*n)⌋`. -/
def jsRoundTenths (sum n : Nat) : Nat := (20 * sum + n) / (2 * n)

/-- The `averageRating` virtual of `bookSchema`, in tenths: `0` with no
populated reviews, else the mean of ALL populated reviews' ratings rounded
to one decimal (`Math.round((sum / this.reviews.length) * 10) / 10`). -/
def averageRatingTenths (reviews : List Review) (b : Book) : Nat :=
  let rs := populatedReviews reviews b
  if rs.length == 0 then 0
  else jsRoundTenths (rs.map (fun r => r.rating)).sum rs.length

/-- The `reviewCount` virtual of `bookSchema`: the number of populated
reviews (again with no active filter). -/
def reviewCountVirtual (reviews : List Review) (b : Book) : Nat :=
  (populatedReviews reviews b).length

/-- Modelled from the spec (for comparison with `averageRatingTenths`):
"averageRating = mean of active reviews' ratings rounded to 1 decimal
(0 if none)", in tenths. -/
def specActiveAverageRatingTenths (reviews : List Review) (b : Book) : Nat :=
  let rs := (populatedReviews reviews b).filter (fun r => r.isActive)
  if rs.length == 0 then 0
  else jsRoundTenths (rs.map (fun r => r.rating)).sum rs.length

/-- The `statistics.averageRating` of `GET /api/reviews/book/:bookId`
(`reviewRoutes.ts`), in tenths: the aggregation matches
`{ bookId, isActive: true }`, so only active reviews contribute; `0` when
the aggregate is empty. -/
def reviewStatsAverageTenths (s : Store) (bookId : Nat) : Nat :=
  let rs := s.reviews.filter (fun r => r.bookId == bookId && r.isActive)
  if rs.length == 0 then 0
  else jsRoundTenths (rs.map (fun r => r.rating)).sum rs.length

/-! ## Identity and access (src/unnamed auth middleware) -/

/-- Inbound bearer credential as the middleware distinguishes it:
absent header, a token `jwt.verify` rejects, or a token resolving to a
user id. -/
inductive Credential where
  | absent
  | malformed
  | valid (userId : Nat)
  deriving DecidableEq

/-- Outcome of the `auth` middleware. -/
inductive AuthOutcome where
  | ok (u : User)
  | unauthenticated (msg : String)
  deriving DecidableEq

/-- The `auth` middleware (`middleware/auth.ts`): 401 with
"Access denied. No token provided." when the header is absent, 401 with
"Invalid token." when `jwt.verify` throws, 401 with
"Invalid token or user not found." when the user is missing or inactive,
else attaches the user to the request. -/
def authMiddleware (s : Store) (c : Credential) : AuthOutcome :=
  match c with
  | .absent => .unauthenticated "Access denied. No token provided."
  | .malformed => .unauthenticated "Invalid token."
  | .valid uid =>
    match s.users.find? (fun u => u.id == uid) with
    | none => .unauthenticated "Invalid token or user not found."
    | some u =>
      if u.isActive then .ok u
      else .unauthenticated "Invalid token or user not found."

/-! ## Catalog: GET /api/books (bookRoutes) -/

/-- Sort keys accepted by the listing endpoint. -/
inductive SortKey where
  | title
  | author
  | publishedYear
  | averageRating
  | createdAt
  deriving DecidableEq

/-- Sort direction. -/
inductive SortOrder where
  | asc
  | desc
  deriving DecidableEq

/-- Query parameters of `GET /api/books` after parsing (`page`, `limit`
already `parseInt`ed, `minRating` in tenths). -/
structure ListParams where
  page : Nat
  limit : Nat
  search : Option String
  genre : Option String
  author : Option String
  minYear : Option Nat
  maxYear : Option Nat
  minRating : Option Nat
  sortBy : SortKey
  sortOrder : SortOrder
  deriving DecidableEq

/-- The Mongo `query` object built by the handler: `isActive: true`, then
optional `$or` regex search over title/author/description, genre equality
(skipped for `'all'`), author regex, and the publishedYear range. -/
def matchesQuery (p : ListParams) (b : Book) : Bool :=
  b.isActive
  && (match p.search with
      | none => true
      | some s => containsCI b.title s || containsCI b.author s || containsCI b.description s)
  && (match p.genre with
      | none => true
      | some g => g == "all" || b.genre == g)
  && (match p.author with
      | none => true
      | some a => containsCI b.author a)
  && (match p.minYear with
      | none => true
      | some y => y ≤ b.publishedYear)
  && (match p.maxYear with
      | none => true
      | some y => b.publishedYear ≤ y)

/-- The store-level sort object: `{ createdAt: -1 }` when sorting by the
derived `averageRating`, else the requested field and direction.  Encoded
as the boolean order relation the (stable) store sort uses. -/
def dbSortLe (p : ListParams) (a b : Book) : Bool :=
  match p.sortBy with
  | .averageRating => b.createdAt ≤ a.createdAt
  | .createdAt =>
    match p.sortOrder with
    | .desc => b.createdAt ≤ a.createdAt
    | .asc => a.createdAt ≤ b.createdAt
  | .publishedYear =>
    match p.sortOrder with
    | .desc => b.publishedYear ≤ a.publishedYear
    | .asc => a.publishedYear ≤ b.publishedYear
  | .title =>
    match p.sortOrder with
    | .desc => strLe b.title a.title
    | .asc => strLe a.title b.title
  | .author =>
    match p.sortOrder with
    | .desc => strLe b.author a.author
    | .asc => strLe a.author b.author

/-- The in-memory JavaScript comparator of the handler:
`(b.averageRating - a.averageRating) * (sortOrder === 'desc' ? -1 : 1)`,
over averages in tenths (scaling by 10 preserves the sign). -/
def jsAvgCmp (reviews : List Review) (o : SortOrder) (a b : Book) : Int :=
  ((averageRatingTenths reviews b : Int) - (averageRatingTenths reviews a : Int))
    * (match o with | .desc => -1 | .asc => 1)

/-- The order relation a stable sort derives from `jsAvgCmp`: `a` may stay
before `b` iff the comparator does not strictly order `b` first. -/
def jsAvgLe (reviews : List Review) (o : SortOrder) (a b : Book) : Bool :=
  jsAvgCmp reviews o a b ≤ 0

/-- The page the store returns before the rating filter: query filter,
store sort, `skip`, `limit`. -/
def pagedFetch (s : Store) (p : ListParams) : List Book :=
  ((sortLe (dbSortLe p) (s.books.filter (matchesQuery p))).drop ((p.page - 1) * p.limit)).take p.limit

/-- The page after the handler's post-fetch `minRating` filter
(`book.averageRating >= parseFloat(minRating)`). -/
def ratingFiltered (s : Store) (p : ListParams) : List Book :=
  match p.minRating with
  | none => pagedFetch s p
  | some m => (pagedFetch s p).filter (fun b => m ≤ averageRatingTenths s.reviews b)

/-- Result of `GET /api/books`. -/
structure ListBooksResult where
  books : List Book
  currentPage : Nat
  totalPages : Nat
  totalBooks : Nat
  hasNextPage : Bool
  hasPrevPage : Bool
  genres : List String
  deriving DecidableEq

/-- Nat ceiling division, modelling `Math.ceil(totalBooks / limit)` for a
positive `limit`. -/
def ceilDiv (a b : Nat) : Nat := (a + b - 1) / b

/-- The `GET /api/books` handler: build `query`, fetch the sorted page,
apply the post-fetch rating filter, re-sort the page in memory when
`sortBy === 'averageRating'`, and count `totalBooks` over `query` (the
rating filter is not part of the count). -/
def listBooks (s : Store) (p : ListParams) : ListBooksResult :=
  let sorted :=
    if p.sortBy == SortKey.averageRating
    then sortLe (jsAvgLe s.reviews p.sortOrder) (ratingFiltered s p)
    else ratingFiltered s p
  let totalBooks := (s.books.filter (matchesQuery p)).length
  let totalPages := ceilDiv totalBooks p.limit
  { books := sorted
    currentPage := p.page
    totalPages := totalPages
    totalBooks := totalBooks
    hasNextPage := p.page < totalPages
    hasPrevPage := 1 < p.page
    genres := sortLe strLe ((s.books.filter (fun b => b.isActive)).map (fun b => b.genre)).dedup }

/-! ## Catalog: GET /api/books/:id (bookRoutes) -/

/-- Rating distribution buckets 1..5 as the single-book handler builds
them, iterating over ALL populated reviews of the book. -/
structure RatingDist where
  one : Nat
  two : Nat
  three : Nat
  four : Nat
  five : Nat
  deriving DecidableEq

/-- Count the buckets over a review list. -/
def ratingDistOf (rs : List Review) : RatingDist :=
  { one := rs.countP (fun r => r.rating == 1)
    two := rs.countP (fun r => r.rating == 2)
    three := rs.countP (fun r => r.rating == 3)
    four := rs.countP (fun r => r.rating == 4)
    five := rs.countP (fun r => r.rating == 5) }

/-- JavaScript strict equality between a string primitive (left) and a
Mongoose `ObjectId` object (right).  `===` between a primitive and an
object is always `false`: the handler compares
`review.userId._id.toString()` (a string) against `req.user._id` (the
`ObjectId` of the Mongoose document the auth middleware attached), so the
comparison never succeeds. -/
def jsStrictEqStrObjectId (_s : String) (_oid : Nat) : Bool := false

/-- Response payload of `GET /api/books/:id`. -/
structure GetBookData where
  book : Book
  reviews : List Review
  averageRating : Nat
  reviewCount : Nat
  dist : RatingDist
  userReview : Option Review
  deriving DecidableEq

/-- The `GET /api/books/:id` handler body (after `auth`):
`findOne({ _id, isActive: true })`, populate ALL reviews sorted by
`createdAt` descending, compute the rating distribution over them, and
look up `userReview` with
`book.reviews.find(r => r.userId._id.toString() === req.user._id)`. -/
def getBook (s : Store) (caller : Option User) (id : Nat) : Option GetBookData :=
  match s.books.find? (fun b => b.id == id && b.isActive) with
  | none => none
  | some b =>
    let rs := sortLe (fun r1 r2 => r2.createdAt ≤ r1.createdAt) (populatedReviews s.reviews b)
    some
      { book := b
        reviews := rs
        averageRating := averageRatingTenths s.reviews b
        reviewCount := reviewCountVirtual s.reviews b
        dist := ratingDistOf rs
        userReview :=
          match caller with
          | none => none
          | some u => rs.find? (fun r => jsStrictEqStrObjectId (toString r.userId) u.id) }

/-! ## Catalog: GET /api/books/:id/similar (bookRoutes, no auth) -/

/-- Result of the similar-books endpoint. -/
inductive SimilarResult where
  | notFound
  | ok (books : List Book)
  deriving DecidableEq

/-- The `GET /api/books/:id/similar` handler: the target lookup is
`Book.findById(req.params.id)` with NO `isActive` filter; the candidates
are active books other than the target matching genre OR author OR a tag
intersection, sorted by `createdAt` descending, capped at 6. -/
def similarBooks (s : Store) (id : Nat) : SimilarResult :=
  match s.books.find? (fun b => b.id == id) with
  | none => .notFound
  | some target =>
    .ok (((sortLe (fun a b => b.createdAt ≤ a.createdAt)
      (s.books.filter (fun b =>
        b.id != id && b.isActive &&
        (b.genre == target.genre || b.author == target.author ||
         b.tags.any (fun t => target.tags.contains t))))).take 6))

/-! ## Route wrappers: both book read routes run the auth middleware -/

/-- Transport-level result of a routed request. -/
inductive ApiResult (α : Type) where
  | ok (a : α)
  | authFailed (msg : String)
  | notFound
  deriving DecidableEq

/-- The route `router.get('/', auth, ...)`: the `auth` middleware runs
before the listing handler. -/
def listBooksEndpoint (s : Store) (c : Credential) (p : ListParams) : ApiResult ListBooksResult :=
  match authMiddleware s c with
  | .unauthenticated m => .authFailed m
  | .ok _ => .ok (listBooks s p)

/-- The route `router.get('/:id', auth, ...)`: the `auth` middleware runs
before the single-book handler. -/
def getBookEndpoint (s : Store) (c : Credential) (id : Nat) : ApiResult GetBookData :=
  match authMiddleware s c with
  | .unauthenticated m => .authFailed m
  | .ok u =>
    match getBook s (some u) id with
    | none => .notFound
    | some d => .ok d

/-- Projection: the `userReview` field of a successful single-book fetch. -/
def getBookUserReview (s : Store) (c : Credential) (id : Nat) : Option (Option Review) :=
  match getBookEndpoint s c id with
  | .ok d => some d.userReview
  | _ => none

/-! ## Mutating operations (bookRoutes, reviewRoutes) -/

/-- Request body of `POST/PUT /api/books` after `validateBook`.
`validateBook` checks the five required fields but does not strip
unrecognised keys, so a client-supplied `addedBy` (and nothing in the
handler) passes through to `findByIdAndUpdate`; `none` models a body
without that key.  The remaining optional catalog fields (isbn,
coverImage, pageCount, language, publisher, tags) are orthogonal to every
verified property and are elided. -/
structure BookBody where
  title : String
  author : String
  description : String
  genre : String
  publishedYear : Nat
  addedBy : Option Nat
  deriving DecidableEq

/-- Effect of `findByIdAndUpdate(id, req.body)` on the matched document:
every key present in the body overwrites the field; an absent `addedBy`
key leaves the owner reference untouched. -/
def applyBookBody (body : BookBody) (b : Book) : Book :=
  { b with
    title := body.title
    author := body.author
    description := body.description
    genre := body.genre
    publishedYear := body.publishedYear
    addedBy := body.addedBy.getD b.addedBy }

/-- Result of `PUT /api/books/:id`. -/
inductive UpdateBookResult where
  | notFound
  | forbidden
  | updated (b : Book)
  deriving DecidableEq

/-- The `PUT /api/books/:id` handler (after `auth` and `validateBook`):
`findOne({ _id, isActive: true })`, owner check
`book.addedBy.toString() !== req.user._id.toString()`, then
`findByIdAndUpdate(req.params.id, req.body)`. -/
def updateBook (s : Store) (u : User) (id : Nat) (body : BookBody) :
    UpdateBookResult × Store :=
  match s.books.find? (fun b => b.id == id && b.isActive) with
  | none => (.notFound, s)
  | some b =>
    if b.addedBy != u.id then (.forbidden, s)
    else
      (.updated (applyBookBody body b),
       { s with books := s.books.map (fun bk => if bk.id == id then applyBookBody body bk else bk) })

/-- Result of `DELETE /api/books/:id` and `DELETE /api/reviews/:id`. -/
inductive DeleteResult where
  | notFound
  | forbidden
  | deleted
  deriving DecidableEq

/-- The `DELETE /api/books/:id` handler: owner check, soft-delete the
book, then `Review.updateMany({ bookId }, { isActive: false })`. -/
def deleteBook (s : Store) (u : User) (id : Nat) : DeleteResult × Store :=
  match s.books.find? (fun b => b.id == id && b.isActive) with
  | none => (.notFound, s)
  | some b =>
    if b.addedBy != u.id then (.forbidden, s)
    else
      (.deleted,
       { s with
         books := s.books.map (fun bk => if bk.id == id then { bk with isActive := false } else bk)
         reviews := s.reviews.map (fun r => if r.bookId == id then { r with isActive := false } else r) })

/-- The `POST /api/books` handler: `addedBy` is overwritten with the
authenticated user's id (`{ ...req.body, addedBy: req.user._id }`); the
insert is guarded by Mongo's unique `_id` index (a duplicate-key insert
changes nothing). -/
def createBook (s : Store) (u : User) (bid : Nat) (body : BookBody) (now : Nat) :
    Store :=
  if s.books.any (fun b => b.id == bid) then s
  else
    { s with
      books := s.books ++
        [{ id := bid
           title := body.title
           author := body.author
           description := body.description
           genre := body.genre
           publishedYear := body.publishedYear
           tags := []
           addedBy := u.id
           isActive := true
           createdAt := now }] }

/-- Result of `POST /api/reviews`. -/
inductive CreateReviewResult where
  | bookNotFound
  | duplicateActive
  | uniqueViolation
  | created (r : Review)
  deriving DecidableEq

/-- The review document `new Review({...})` builds. -/
def newReview (u : User) (rid bookId rating : Nat) (text : String)
    (title : Option String) (now : Nat) : Review :=
  { id := rid
    bookId := bookId
    userId := u.id
    rating := rating
    reviewText := text
    title := title
    likes := []
    isActive := true
    createdAt := now }

/-- The `POST /api/reviews` handler: 404 when the book is missing or
inactive; 400 "You have already reviewed this book" when an ACTIVE review
for `(bookId, userId)` exists; otherwise `review.save()`, whose insert is
guarded by the unconditional unique index
`reviewSchema.index({ bookId: 1, userId: 1 }, { unique: true })` — when
any review record (active or soft-deleted) already holds the pair, the
insert raises a duplicate-key error that propagates to the error-handling
middleware (`uniqueViolation`), and the store is unchanged. -/
def createReview (s : Store) (u : User) (rid bookId rating : Nat)
    (text : String) (title : Option String) (now : Nat) :
    CreateReviewResult × Store :=
  match s.books.find? (fun b => b.id == bookId && b.isActive) with
  | none => (.bookNotFound, s)
  | some _ =>
    match s.reviews.find? (fun r => r.bookId == bookId && r.userId == u.id && r.isActive) with
    | some _ => (.duplicateActive, s)
    | none =>
      if s.reviews.any (fun r => r.bookId == bookId && r.userId == u.id) then
        (.uniqueViolation, s)
      else
        (.created (newReview u rid bookId rating text title now),
         { s with reviews := s.reviews ++ [newReview u rid bookId rating text title now] })

/-- Result of `PUT /api/reviews/:id`. -/
inductive UpdateReviewResult where
  | notFound
  | forbidden
  | updated (r : Review)
  deriving DecidableEq

/-- Field changes `PUT /api/reviews/:id` applies to the found document:
`rating` and `reviewText` unconditionally, `title` only when present. -/
def applyReviewBody (rating : Nat) (text : String) (title : Option String) (r : Review) : Review :=
  { r with
    rating := rating
    reviewText := text
    title := match title with | none => r.title | some t => some t }

/-- The `PUT /api/reviews/:id` handler: `findOne({ _id, isActive: true })`,
author check, then mutate and save. -/
def updateReview (s : Store) (u : User) (id rating : Nat) (text : String)
    (title : Option String) : UpdateReviewResult × Store :=
  match s.reviews.find? (fun r => r.id == id && r.isActive) with
  | none => (.notFound, s)
  | some r =>
    if r.userId != u.id then (.forbidden, s)
    else
      (.updated (applyReviewBody rating text title r),
       { s with reviews := s.reviews.map (fun rv =>
          if rv.id == id && rv.isActive then applyReviewBody rating text title rv else rv) })

/-- The `DELETE /api/reviews/:id` handler: author check, then
`review.isActive = false; review.save()` — a soft delete, never a
physical removal. -/
def deleteReview (s : Store) (u : User) (id : Nat) : DeleteResult × Store :=
  match s.reviews.find? (fun r => r.id == id && r.isActive) with
  | none => (.notFound, s)
  | some r =>
    if r.userId != u.id then (.forbidden, s)
    else
      (.deleted,
       { s with reviews := s.reviews.map (fun rv =>
          if rv.id == id && rv.isActive then { rv with isActive := false } else rv) })

/-- Result of `POST /api/reviews/:id/like`. -/
inductive ToggleResult where
  | notFound
  | toggled (likes : Nat) (isLiked : Bool)
  deriving DecidableEq

/-- The like/unlike update of the handler:
`likeIndex = review.likes.indexOf(userId)` (Mongoose arrays resolve
ObjectId equality by value), then `splice(likeIndex, 1)` — remove the
first occurrence — or `push(userId)`. -/
def jsToggleLikes (likes : List Nat) (uid : Nat) : List Nat :=
  if likes.contains uid then likes.erase uid else likes ++ [uid]

/-- Save effect of the like handler on one stored document: the found
(active, matching) review gets the toggled liker array, every other
document is untouched. -/
def toggleUpd (uid rid : Nat) (rv : Review) : Review :=
  if rv.id == rid && rv.isActive then { rv with likes := jsToggleLikes rv.likes uid } else rv

/-- The `POST /api/reviews/:id/like` handler:
`findOne({ _id, isActive: true })`, toggle membership, save; responds with
the new array length and `isLiked = (likeIndex === -1)`. -/
def toggleLike (s : Store) (u : User) (id : Nat) : ToggleResult × Store :=
  match s.reviews.find? (fun r => r.id == id && r.isActive) with
  | none => (.notFound, s)
  | some r =>
    (.toggled (jsToggleLikes r.likes u.id).length (!(r.likes.contains u.id)),
     { s with reviews := s.reviews.map (toggleUpd u.id id) })

/-! ## Operation alphabet for state-invariant claims -/

/-- One mutating API call. -/
inductive Op where
  | createBookOp (u : User) (bid : Nat) (body : BookBody) (now : Nat)
  | updateBookOp (u : User) (id : Nat) (body : BookBody)
  | deleteBookOp (u : User) (id : Nat)
  | createReviewOp (u : User) (rid bookId rating : Nat) (text : String) (title : Option String) (now : Nat)
  | updateReviewOp (u : User) (id rating : Nat) (text : String) (title : Option String)
  | deleteReviewOp (u : User) (id : Nat)
  | toggleLikeOp (u : User) (id : Nat)

/-- State transition of one API call (the store component of the
corresponding handler). -/
def applyOp (s : Store) (op : Op) : Store :=
  match op with
  | .createBookOp u bid body now => createBook s u bid body now
  | .updateBookOp u id body => (updateBook s u id body).2
  | .deleteBookOp u id => (deleteBook s u id).2
  | .createReviewOp u rid bookId rating text title now =>
      (createReview s u rid bookId rating text title now).2
  | .updateReviewOp u id rating text title => (updateReview s u id rating text title).2
  | .deleteReviewOp u id => (deleteReview s u id).2
  | .toggleLikeOp u id => (toggleLike s u id).2

/-- Run a sequence of API calls. -/
def applyOps (s : Store) (ops : List Op) : Store :=
  ops.foldl applyOp s

/-- Owner reference of the book with the given id (first match). -/
def ownerOf (s : Store) (id : Nat) : Option Nat :=
  (s.books.find? (fun b => b.id == id)).map (fun b => b.addedBy)

/-- Number of review records — active or soft-deleted — for one
`(bookId, userId)` pair; the quantity the unique index constrains. -/
def pairRecordCount (s : Store) (bookId userId : Nat) : Nat :=
  s.reviews.countP (fun r => r.bookId == bookId && r.userId == userId)

/-! ## Concrete fixtures used by witnesses and counterexamples -/

/-- A user with id 1 used across fixtures. -/
def uAnn : User :=
  { id := 1, name := "Ann", email := "ann@example.com", bio := "", isActive := true }

/-- A second user. -/
def uBob : User :=
  { id := 2, name := "Bob", email := "bob@example.com", bio := "", isActive := true }

/-- An active book with id 1 owned by user 1. -/
def bDune : Book :=
  { id := 1, title := "Dune", author := "Frank Herbert",
    description := "A desert planet epic of politics and prophecy.",
    genre := "Sci-Fi", publishedYear := 1965, tags := [], addedBy := 1,
    isActive := true, createdAt := 1 }

/-- Fixture for C1: one active five-star review and one soft-deleted
one-star review on book 1. -/
def c1Store : Store :=
  { users := [uAnn, uBob]
    books := [bDune]
    reviews :=
      [{ id := 1, bookId := 1, userId := 2, rating := 5,
         reviewText := "Loved every page of it.", title := none, likes := [],
         isActive := true, createdAt := 2 },
       { id := 2, bookId := 1, userId := 1, rating := 1,
         reviewText := "Could not finish this one.", title := none, likes := [],
         isActive := false, createdAt := 3 }] }

/-- C1: for every Book, on every read path that reports it, the derived
averageRating is claimed to equal the mean of the ACTIVE reviews' ratings
rounded to one decimal, soft-deleted reviews never contributing.  The
code violates this: the `averageRating` virtual of `bookSchema` averages
over ALL populated reviews (the `reviews` virtual and every `populate`
call lack an `isActive` match), so on book 1 — one active 5-star review,
one soft-deleted 1-star review — the single-book fetch reports 3.0 where
the claim demands 5.0; the review-statistics endpoint for the same book,
which does filter `isActive: true` in its aggregation, reports 5.0,
exposing the internal inconsistency. -/
theorem c1_averageRating_counts_soft_deleted :
    averageRatingTenths c1Store.reviews bDune = 30
    ∧ specActiveAverageRatingTenths c1Store.reviews bDune = 50
    ∧ reviewStatsAverageTenths c1Store 1 = 50
    ∧ (getBook c1Store none 1).map (fun d => d.averageRating) = some 30
    ∧ (30 : Nat) ≠ 50 := by
  refine ⟨by decide, by decide, by decide, by decide, by decide⟩

/-- C4: `GET /api/books` and `GET /api/books/:id` are claimed to succeed
without a credential.  Both routes are registered as
`router.get(..., auth, ...)` and the `auth` middleware terminates the
request with a 401 response whenever the bearer token is absent or
invalid, so no unauthenticated caller ever reaches either handler. -/
theorem c4_book_read_routes_reject_missing_credential :
    ∀ (s : Store) (p : ListParams) (id : Nat),
      listBooksEndpoint s Credential.absent p
          = ApiResult.authFailed "Access denied. No token provided."
      ∧ getBookEndpoint s Credential.absent id
          = ApiResult.authFailed "Access denied. No token provided."
      ∧ listBooksEndpoint s Credential.malformed p
          = ApiResult.authFailed "Invalid token."
      ∧ getBookEndpoint s Credential.malformed id
          = ApiResult.authFailed "Invalid token." :=
  fun _ _ _ => ⟨rfl, rfl, rfl, rfl⟩

/-- Fixture for C8: user 1 has an active review on active book 1. -/
def c8Store : Store :=
  { users := [uAnn]
    books := [bDune]
    reviews :=
      [{ id := 1, bookId := 1, userId := 1, rating := 4,
         reviewText := "Great characters and setting.", title := none,
         likes := [], isActive := true, createdAt := 2 }] }

/-- C8: the single-book response is claimed to carry the authenticated
caller's own active Review in `userReview`.  The handler computes
`book.reviews.find(r => r.userId._id.toString() === req.user._id)`:
the left side is a string primitive, the right side the `ObjectId` of the
Mongoose user document the auth middleware attached, and JavaScript
strict equality between a primitive and an object is always false — so
`userReview` is never found, even for the caller whose active review is
plainly in the store (and the route's own owner checks elsewhere write
`.toString()` on both sides).  Consequently no own-review is ever
returned, for any store, caller or book. -/
theorem c8_userReview_never_returned :
    getBookUserReview c8Store (Credential.valid 1) 1 = some none
    ∧ c8Store.reviews.any (fun r => r.bookId == 1 && r.userId == 1 && r.isActive) = true
    ∧ (∀ (s : Store) (u : User) (id : Nat) (d : GetBookData),
        getBook s (some u) id = some d → d.userReview = none) := by
  refine ⟨by decide, by decide, ?_⟩
  intro s u id d h
  unfold getBook at h
  cases hf : s.books.find? (fun b => b.id == id && b.isActive) with
  | none => rw [hf] at h; exact absurd h (by simp)
  | some b =>
    rw [hf] at h
    simp only [Option.some.injEq] at h
    have : d.userReview = List.find?
        (fun r => jsStrictEqStrObjectId (toString r.userId) u.id)
        (sortLe (fun r1 r2 => r2.createdAt ≤ r1.createdAt) (populatedReviews s.reviews b)) := by
      rw [← h]
    rw [this]
    apply List.find?_eq_none.mpr
    intro x _
    simp [jsStrictEqStrObjectId]

/-- Fixture for C2's counterexample: user 1's review of book 1 has been
soft-deleted; no active review exists for the pair. -/
def c2Store : Store :=
  { users := [uAnn]
    books := [bDune]
    reviews :=
      [{ id := 1, bookId := 1, userId := 1, rating := 2,
         reviewText := "I changed my mind about this.", title := none,
         likes := [], isActive := false, createdAt := 2 }] }

/-- C2 counterexample: the claim says a new createReview for a pair whose
previous Review was soft-deleted succeeds.  It does not: the explicit
duplicate check only looks at active reviews and passes, but the insert
then violates the unconditional unique `(bookId, userId)` index and the
handler has no catch for it, so the request ends in a propagated
duplicate-key storage error and the store is unchanged. -/
theorem c2_counterexample_soft_deleted_pair_blocks_insert :
    (createReview c2Store uAnn 9 1 4 "Giving this a second chance." none 5).1
        = CreateReviewResult.uniqueViolation
    ∧ (createReview c2Store uAnn 9 1 4 "Giving this a second chance." none 5).2 = c2Store
    ∧ c2Store.reviews.any (fun r => r.bookId == 1 && r.userId == 1 && r.isActive) = false := by
  refine ⟨by decide, by decide, by decide⟩

/-- Fixture for C3's counterexample: book 1 is owned by user 1, who sends
an update whose body carries `addedBy: 2`. -/
def c3Body : BookBody :=
  { title := "Dune", author := "Frank Herbert",
    description := "A desert planet epic of politics and prophecy.",
    genre := "Sci-Fi", publishedYear := 1965, addedBy := some 2 }

/-- Store for C3's counterexample. -/
def c3Store : Store := { users := [uAnn, uBob], books := [bDune], reviews := [] }

/-- C3 counterexample: the claim says no operation after creation changes
a Book's owner reference.  `PUT /api/books/:id` passes `req.body` whole to
`findByIdAndUpdate` and `validateBook` does not strip unknown keys, so an
owner-issued update whose body carries `addedBy: 2` reassigns the book
from user 1 to user 2. -/
theorem c3_counterexample_update_changes_owner :
    ownerOf c3Store 1 = some 1
    ∧ (updateBook c3Store uAnn 1 c3Body).1 = UpdateBookResult.updated (applyBookBody c3Body bDune)
    ∧ ownerOf (applyOp c3Store (Op.updateBookOp uAnn 1 c3Body)) 1 = some 2 := by
  refine ⟨by decide, by decide, by decide⟩

/-- Fixture for C5's counterexample: book 2 is soft-deleted; book 1 is an
active book of the same genre; id 99 is absent. -/
def c5Store : Store :=
  { users := [uAnn]
    books :=
      [bDune,
       { id := 2, title := "Messiah", author := "Frank Herbert",
         description := "A sequel continuing the desert epic.",
         genre := "Sci-Fi", publishedYear := 1969, tags := [], addedBy := 1,
         isActive := false, createdAt := 2 }]
    reviews := [] }

/-- C5 counterexample: the claim says every read path treats a
soft-deleted entity exactly like an absent one.  The similar-books target
lookup is `Book.findById(req.params.id)` with no `isActive` filter: for
the soft-deleted book 2 it returns 200 with the similar list, while the
absent id 99 yields the NotFound response — the two are observably
different. -/
theorem c5_counterexample_similar_books_sees_tombstone :
    similarBooks c5Store 2 = SimilarResult.ok [bDune]
    ∧ similarBooks c5Store 99 = SimilarResult.notFound
    ∧ c5Store.books.any (fun b => b.id == 2 && !b.isActive) = true := by
  refine ⟨by decide, by decide, by decide⟩

/-- Fixture for C7's counterexample: two active books; book 1 is newer
(createdAt 2) with a 1-star average, book 2 older with a 5-star average. -/
def c7Store : Store :=
  { users := [uAnn]
    books :=
      [{ id := 1, title := "Alpha", author := "A. Author",
         description := "The first of two sample books.", genre := "Fiction",
         publishedYear := 2001, tags := [], addedBy := 1, isActive := true,
         createdAt := 2 },
       { id := 2, title := "Beta", author := "B. Author",
         description := "The second of two sample books.", genre := "Fiction",
         publishedYear := 2002, tags := [], addedBy := 1, isActive := true,
         createdAt := 1 }]
    reviews :=
      [{ id := 1, bookId := 1, userId := 1, rating := 1,
         reviewText := "Disappointing from start to finish.", title := none,
         likes := [], isActive := true, createdAt := 3 },
       { id := 2, bookId := 2, userId := 1, rating := 5,
         reviewText := "An absolute delight to read.", title := none,
         likes := [], isActive := true, createdAt := 4 }] }

/-- List request asking for averageRating descending. -/
def c7Params : ListParams :=
  { page := 1, limit := 12, search := none, genre := none, author := none,
    minYear := none, maxYear := none, minRating := none,
    sortBy := SortKey.averageRating, sortOrder := SortOrder.desc }

/-- C7 counterexample: the claim says `sortOrder = 'desc'` reorders the
page by descending averageRating.  The comparator
`(b.averageRating - a.averageRating) * (sortOrder === 'desc' ? -1 : 1)`
double-negates the direction: with 'desc' requested, the page comes back
in ASCENDING average order — book 1 (average 1.0) before book 2
(average 5.0). -/
theorem c7_counterexample_desc_sort_is_ascending :
    (listBooks c7Store c7Params).books.map (fun b => b.id) = [1, 2]
    ∧ averageRatingTenths c7Store.reviews
        { id := 1, title := "Alpha", author := "A. Author",
          description := "The first of two sample books.", genre := "Fiction",
          publishedYear := 2001, tags := [], addedBy := 1, isActive := true,
          createdAt := 2 } = 10
    ∧ c7Params.sortOrder = SortOrder.desc
    ∧ ([1, 2] : List Nat) ≠ [2, 1] := by
  refine ⟨by decide, by decide, by decide, by decide⟩

/-! ## C2 (amended) : duplicate handling of POST /api/reviews -/

/-- C2 amended: with the target book active, `createReview` fails with the
explicit DuplicateReview response exactly when an ACTIVE review for
`(bookId, author.id)` exists; when only a soft-deleted record holds the
pair the insert instead dies on the unconditional storage-level unique
index (surfaced as a propagated duplicate-key storage error, not as the
DuplicateReview response); the review is created exactly when no record —
active or soft-deleted — holds the pair. -/
theorem c2_createReview_duplicate_characterization
    (s : Store) (u : User) (rid bookId rating : Nat) (text : String)
    (title : Option String) (now : Nat)
    (hbook : (s.books.find? (fun b => b.id == bookId && b.isActive)).isSome = true) :
    ((createReview s u rid bookId rating text title now).1 = CreateReviewResult.duplicateActive
      ↔ s.reviews.any (fun r => r.bookId == bookId && r.userId == u.id && r.isActive) = true)
    ∧ ((createReview s u rid bookId rating text title now).1 = CreateReviewResult.uniqueViolation
      ↔ (s.reviews.any (fun r => r.bookId == bookId && r.userId == u.id && r.isActive) = false
         ∧ s.reviews.any (fun r => r.bookId == bookId && r.userId == u.id) = true))
    ∧ ((createReview s u rid bookId rating text title now).1
        = CreateReviewResult.created (newReview u rid bookId rating text title now)
      ↔ s.reviews.any (fun r => r.bookId == bookId && r.userId == u.id) = false) := by
  obtain ⟨b, hb⟩ := Option.isSome_iff_exists.mp hbook
  unfold createReview
  rw [hb]
  cases hact : s.reviews.find? (fun r => r.bookId == bookId && r.userId == u.id && r.isActive) with
  | some r =>
    have hmem := List.mem_of_find?_eq_some hact
    have hpr := List.find?_some hact
    have hany : s.reviews.any (fun r => r.bookId == bookId && r.userId == u.id && r.isActive) = true := by
      rw [List.any_eq_true]
      exact ⟨r, hmem, hpr⟩
    have hanyPair : s.reviews.any (fun r => r.bookId == bookId && r.userId == u.id) = true := by
      rw [List.any_eq_true]
      refine ⟨r, hmem, ?_⟩
      simp only [Bool.and_eq_true] at hpr
      simp [hpr.1.1, hpr.1.2]
    simp [hany, hanyPair]
  | none =>
    have hanyF : s.reviews.any (fun r => r.bookId == bookId && r.userId == u.id && r.isActive) = false := by
      rw [Bool.eq_false_iff]
      intro hc
      rw [List.any_eq_true] at hc
      obtain ⟨r, hr, hpr⟩ := hc
      exact absurd hpr (by simpa using List.find?_eq_none.mp hact r hr)
    cases hpair : s.reviews.any (fun r => r.bookId == bookId && r.userId == u.id) with
    | true => simp [hanyF, hpair]
    | false => simp [hanyF, hpair]

/-- Fresh-pair store for the C2 witness: book active, no review records. -/
def c2wStore : Store := { users := [uAnn], books := [bDune], reviews := [] }

/-- Witness for C2's amended theorem: on a store with no record for the
pair, the book being active, the characterization yields a created
review. -/
theorem c2_createReview_duplicate_characterization_witness :
    (createReview c2wStore uAnn 1 1 5 "A wonderful first review." none 3).1
      = CreateReviewResult.created (newReview uAnn 1 1 5 "A wonderful first review." none 3) :=
  ((c2_createReview_duplicate_characterization c2wStore uAnn 1 1 5
      "A wonderful first review." none 3 (by decide)).2.2).mpr (by decide)

/-! ## C6 : minRating is filtered after pagination -/

/-- C6: for a listing request carrying a `minRating` filter, the rating
predicate is applied to the items of the already-retrieved page (the
store query is filtered, sorted, skipped and limited first), so the
returned item count is the filtered page's count — at most `limit`, and
possibly below it — while `totalBooks` is the count of books matching
every predicate except the rating one, and
`totalPages = ceil(totalBooks / limit)`. -/
theorem c6_minRating_filters_after_pagination
    (s : Store) (p : ListParams) (m : Nat)
    (hm : p.minRating = some m) (_hl : 0 < p.limit) :
    ((listBooks s p).books.length
        = ((pagedFetch s p).filter (fun b => m ≤ averageRatingTenths s.reviews b)).length)
    ∧ (∀ b, b ∈ (listBooks s p).books ↔
        (b ∈ pagedFetch s p ∧ m ≤ averageRatingTenths s.reviews b))
    ∧ (listBooks s p).books.length ≤ p.limit
    ∧ (listBooks s p).totalBooks = (s.books.filter (matchesQuery p)).length
    ∧ (listBooks s p).totalPages
        = ceilDiv (s.books.filter (matchesQuery p)).length p.limit := by
  have hrf : ratingFiltered s p
      = (pagedFetch s p).filter (fun b => decide (m ≤ averageRatingTenths s.reviews b)) := by
    simp [ratingFiltered, hm]
  have hbooks : (listBooks s p).books
      = (if p.sortBy == SortKey.averageRating
         then sortLe (jsAvgLe s.reviews p.sortOrder) (ratingFiltered s p)
         else ratingFiltered s p) := rfl
  have hlen : (listBooks s p).books.length = (ratingFiltered s p).length := by
    rw [hbooks]
    by_cases hs : p.sortBy == SortKey.averageRating
    · rw [if_pos hs, length_sortLe]
    · rw [if_neg hs]
  have hmem : ∀ b, b ∈ (listBooks s p).books ↔ b ∈ ratingFiltered s p := by
    intro b
    rw [hbooks]
    by_cases hs : p.sortBy == SortKey.averageRating
    · rw [if_pos hs, mem_sortLe]
    · rw [if_neg hs]
  refine ⟨?_, ?_, ?_, rfl, rfl⟩
  · rw [hlen, hrf]
  · intro b
    rw [hmem b, hrf, List.mem_filter]
    simp
  · calc (listBooks s p).books.length
        = (ratingFiltered s p).length := hlen
      _ ≤ (pagedFetch s p).length := by
          rw [hrf]; exact List.length_filter_le _ _
      _ ≤ p.limit := by
          unfold pagedFetch
          rw [List.length_take]
          exact min_le_left _ _

/-- Parameters for the C6 witness: limit 2, minRating 4.0. -/
def c6wParams : ListParams :=
  { page := 1, limit := 2, search := none, genre := none, author := none,
    minYear := none, maxYear := none, minRating := some 40,
    sortBy := SortKey.createdAt, sortOrder := SortOrder.desc }

/-- Witness for C6: on the two-book store `c7Store` (averages 1.0 and
5.0) with minRating 4.0 and pageSize 2, the page returns a single book
while `totalBooks` stays 2 — the rating filter ran after pagination. -/
theorem c6_minRating_filters_after_pagination_witness :
    (listBooks c7Store c6wParams).totalBooks
        = (c7Store.books.filter (matchesQuery c6wParams)).length
    ∧ (listBooks c7Store c6wParams).books.length = 1
    ∧ (listBooks c7Store c6wParams).totalBooks = 2 :=
  ⟨(c6_minRating_filters_after_pagination c7Store c6wParams 40 rfl (by decide)).2.2.2.1,
   by decide, by decide⟩

/-! ## C7 (amended) : in-memory averageRating sort -/

theorem jsAvgLe_desc_iff (rev : List Review) (a b : Book) :
    jsAvgLe rev SortOrder.desc a b = true
      ↔ averageRatingTenths rev a ≤ averageRatingTenths rev b := by
  simp only [jsAvgLe, jsAvgCmp, decide_eq_true_eq]
  omega

theorem jsAvgLe_asc_iff (rev : List Review) (a b : Book) :
    jsAvgLe rev SortOrder.asc a b = true
      ↔ averageRatingTenths rev b ≤ averageRatingTenths rev a := by
  simp only [jsAvgLe, jsAvgCmp, decide_eq_true_eq]
  omega

theorem jsAvgLe_total (rev : List Review) (o : SortOrder) (a b : Book) :
    jsAvgLe rev o a b || jsAvgLe rev o b a := by
  cases o <;> simp only [jsAvgLe, jsAvgCmp, Bool.or_eq_true, decide_eq_true_eq] <;> omega

theorem jsAvgLe_trans (rev : List Review) (o : SortOrder) (a b c : Book)
    (hab : jsAvgLe rev o a b = true) (hbc : jsAvgLe rev o b c = true) :
    jsAvgLe rev o a c = true := by
  cases o <;>
    simp only [jsAvgLe, jsAvgCmp, decide_eq_true_eq] at hab hbc ⊢ <;> omega

/-- C7 amended: for a listing request sorted by the derived
averageRating, the store-level fetch is ordered by `createdAt` descending
and only the fetched (and rating-filtered) page is reordered in memory —
but in the direction OPPOSITE to the requested `sortOrder`, because the
comparator multiplies the already-descending difference
`b.averageRating - a.averageRating` by `-1` again when `'desc'` is
requested: the page comes back ascending in averageRating for
`sortOrder = 'desc'` and descending for `'asc'`; the ordering never
extends across pages. -/
theorem c7_averageRating_sort_page_only_inverted
    (s : Store) (p : ListParams) (h : p.sortBy = SortKey.averageRating) :
    (listBooks s p).books = sortLe (jsAvgLe s.reviews p.sortOrder) (ratingFiltered s p)
    ∧ (∀ a b, dbSortLe p a b = decide (b.createdAt ≤ a.createdAt))
    ∧ (p.sortOrder = SortOrder.desc →
        (listBooks s p).books.Pairwise (fun a b =>
          averageRatingTenths s.reviews a ≤ averageRatingTenths s.reviews b))
    ∧ (p.sortOrder = SortOrder.asc →
        (listBooks s p).books.Pairwise (fun a b =>
          averageRatingTenths s.reviews b ≤ averageRatingTenths s.reviews a)) := by
  have hbeq : (p.sortBy == SortKey.averageRating) = true := by rw [h]; rfl
  have hbooks : (listBooks s p).books
      = sortLe (jsAvgLe s.reviews p.sortOrder) (ratingFiltered s p) := by
    simp [listBooks, hbeq]
  refine ⟨hbooks, ?_, ?_, ?_⟩
  · intro a b
    simp only [dbSortLe, h]
  · intro ho
    rw [hbooks, ho]
    have hp := pairwise_sortLe (jsAvgLe s.reviews SortOrder.desc)
      (jsAvgLe_trans s.reviews SortOrder.desc)
      (jsAvgLe_total s.reviews SortOrder.desc)
      (ratingFiltered s p)
    exact hp.imp (fun hab => (jsAvgLe_desc_iff s.reviews _ _).mp hab)
  · intro ho
    rw [hbooks, ho]
    have hp := pairwise_sortLe (jsAvgLe s.reviews SortOrder.asc)
      (jsAvgLe_trans s.reviews SortOrder.asc)
      (jsAvgLe_total s.reviews SortOrder.asc)
      (ratingFiltered s p)
    exact hp.imp (fun hab => (jsAvgLe_asc_iff s.reviews _ _).mp hab)

/-- Witness for C7's amended theorem: on the two-book fixture with
`sortOrder = 'desc'`, the returned page is ascending in average rating. -/
theorem c7_averageRating_sort_page_only_inverted_witness :
    (listBooks c7Store c7Params).books.Pairwise (fun a b =>
      averageRatingTenths c7Store.reviews a ≤ averageRatingTenths c7Store.reviews b) :=
  (c7_averageRating_sort_page_only_inverted c7Store c7Params rfl).2.2.1 rfl

/-! ## C3 (amended) : ownership across operation sequences -/

theorem find?_map_pred (p : α → Bool) (f : α → α) (hp : ∀ a, p (f a) = p a)
    (l : List α) : (l.map f).find? p = (l.find? p).map f := by
  induction l with
  | nil => rfl
  | cons a as ih =>
    simp only [List.map_cons, List.find?_cons]
    rw [hp a]
    cases h : p a <;> simp [ih]

theorem ownerOf_books_map (users : List User) (books : List Book)
    (reviews : List Review) (f : Book → Book)
    (hid : ∀ b, (f b).id = b.id) (how : ∀ b, (f b).addedBy = b.addedBy)
    (i : Nat) :
    ownerOf ⟨users, books.map f, reviews⟩ i = ownerOf ⟨users, books, reviews⟩ i := by
  unfold ownerOf
  simp only
  rw [find?_map_pred (fun b => b.id == i) f (fun b => by simp [hid b]) books]
  cases h : books.find? (fun b => b.id == i) with
  | none => rfl
  | some b => simp [how b]

theorem books_createReview (s : Store) (u : User) (rid bookId rating : Nat)
    (text : String) (title : Option String) (now : Nat) :
    ((createReview s u rid bookId rating text title now).2).books = s.books := by
  unfold createReview
  cases hf : s.books.find? (fun b => b.id == bookId && b.isActive) with
  | none => rfl
  | some b =>
    cases hg : s.reviews.find? (fun r => r.bookId == bookId && r.userId == u.id && r.isActive) with
    | some r => rfl
    | none =>
      by_cases hh : s.reviews.any (fun r => r.bookId == bookId && r.userId == u.id) = true
      · simp [hh]
      · simp [hh]

theorem books_updateReview (s : Store) (u : User) (id rating : Nat)
    (text : String) (title : Option String) :
    ((updateReview s u id rating text title).2).books = s.books := by
  unfold updateReview
  cases hf : s.reviews.find? (fun r => r.id == id && r.isActive) with
  | none => rfl
  | some r =>
    by_cases hu : r.userId != u.id
    · simp [hu]
    · simp [hu]

theorem books_deleteReview (s : Store) (u : User) (id : Nat) :
    ((deleteReview s u id).2).books = s.books := by
  unfold deleteReview
  cases hf : s.reviews.find? (fun r => r.id == id && r.isActive) with
  | none => rfl
  | some r =>
    by_cases hu : r.userId != u.id
    · simp [hu]
    · simp [hu]

theorem books_toggleLike (s : Store) (u : User) (id : Nat) :
    ((toggleLike s u id).2).books = s.books := by
  unfold toggleLike
  cases hf : s.reviews.find? (fun r => r.id == id && r.isActive) with
  | none => rfl
  | some r => rfl

theorem ownerOf_eq_of_books (s1 s2 : Store) (h : s1.books = s2.books) (i : Nat) :
    ownerOf s1 i = ownerOf s2 i := by
  unfold ownerOf
  rw [h]

/-- Operations whose request body cannot carry an `addedBy` key: every
operation except a book update whose body supplies one. -/
def opKeepsOwnerField : Op → Prop
  | .updateBookOp _ _ body => body.addedBy = none
  | _ => True

theorem ownerOf_applyOp (s : Store) (op : Op) (hop : opKeepsOwnerField op)
    (i o : Nat) (h : ownerOf s i = some o) :
    ownerOf (applyOp s op) i = some o := by
  cases op with
  | createBookOp u bid body now =>
    simp only [applyOp, createBook]
    by_cases hdup : s.books.any (fun b => b.id == bid) = true
    · simpa [hdup] using h
    · rw [if_neg hdup]
      obtain ⟨b, hb, hbo⟩ := Option.map_eq_some'.mp h
      unfold ownerOf
      simp only [List.find?_append, hb]
      simp [hbo]
  | updateBookOp u j body =>
    simp only [applyOp]
    unfold updateBook
    cases hf : s.books.find? (fun b => b.id == j && b.isActive) with
    | none => simpa [hf] using h
    | some b =>
      by_cases hu : b.addedBy != u.id
      · simpa [hf, hu] using h
      · simp only [hf, hu, Bool.false_eq_true, if_neg, if_false]
        have hnone : body.addedBy = none := hop
        have := ownerOf_books_map s.users s.books s.reviews
          (fun bk => if bk.id == j then applyBookBody body bk else bk)
          (fun bk => by by_cases hb : bk.id == j <;> simp [hb, applyBookBody])
          (fun bk => by by_cases hb : bk.id == j <;> simp [hb, applyBookBody, hnone])
          i
        calc ownerOf ⟨s.users, s.books.map (fun bk => if bk.id == j then applyBookBody body bk else bk), s.reviews⟩ i
            = ownerOf ⟨s.users, s.books, s.reviews⟩ i := this
          _ = some o := h
  | deleteBookOp u j =>
    simp only [applyOp]
    unfold deleteBook
    cases hf : s.books.find? (fun b => b.id == j && b.isActive) with
    | none => simpa [hf] using h
    | some b =>
      by_cases hu : b.addedBy != u.id
      · simpa [hf, hu] using h
      · simp only [hf, hu, Bool.false_eq_true, if_neg, if_false]
        have := ownerOf_books_map s.users s.books
          (s.reviews.map (fun r => if r.bookId == j then { r with isActive := false } else r))
          (fun bk => if bk.id == j then { bk with isActive := false } else bk)
          (fun bk => by by_cases hb : bk.id == j <;> simp [hb])
          (fun bk => by by_cases hb : bk.id == j <;> simp [hb])
          i
        calc ownerOf ⟨s.users, s.books.map (fun bk => if bk.id == j then { bk with isActive := false } else bk), _⟩ i
            = ownerOf ⟨s.users, s.books, _⟩ i := this
          _ = some o := h
  | createReviewOp u rid bookId rating text title now =>
    simp only [applyOp]
    rw [ownerOf_eq_of_books _ s (books_createReview s u rid bookId rating text title now) i]
    exact h
  | updateReviewOp u id rating text title =>
    simp only [applyOp]
    rw [ownerOf_eq_of_books _ s (books_updateReview s u id rating text title) i]
    exact h
  | deleteReviewOp u id =>
    simp only [applyOp]
    rw [ownerOf_eq_of_books _ s (books_deleteReview s u id) i]
    exact h
  | toggleLikeOp u id =>
    simp only [applyOp]
    rw [ownerOf_eq_of_books _ s (books_toggleLike s u id) i]
    exact h

/-- C3 amended: a Book's owner reference survives every sequence of API
operations in which no book update carries an `addedBy` key in its body —
in particular every well-formed update.  It is NOT immutable in general:
because the update handler passes the whole request body to
`findByIdAndUpdate` and `validateBook` strips nothing, an update whose
body supplies `addedBy` reassigns the owner (see the counterexample). -/
theorem c3_owner_immutable_without_addedBy_key :
    ∀ (s : Store) (ops : List Op), (∀ op ∈ ops, opKeepsOwnerField op) →
    ∀ (i o : Nat), ownerOf s i = some o → ownerOf (applyOps s ops) i = some o := by
  intro s ops
  induction ops generalizing s with
  | nil => intro _ i o h; exact h
  | cons op rest ih =>
    intro hall i o h
    have h1 := ownerOf_applyOp s op (hall op (by simp)) i o h
    exact ih (applyOp s op) (fun op2 h2 => hall op2 (by simp [h2])) i o h1

/-- Body without an `addedBy` key, for the C3 witness. -/
def c3wBody : BookBody :=
  { title := "Dune (revised)", author := "Frank Herbert",
    description := "A desert planet epic of politics and prophecy.",
    genre := "Sci-Fi", publishedYear := 1965, addedBy := none }

/-- Witness for C3's amended theorem: an owner-issued update without an
`addedBy` key leaves the owner reference at user 1. -/
theorem c3_owner_immutable_without_addedBy_key_witness :
    ownerOf (applyOps c3Store [Op.updateBookOp uAnn 1 c3wBody]) 1 = some 1 :=
  c3_owner_immutable_without_addedBy_key c3Store [Op.updateBookOp uAnn 1 c3wBody]
    (by
      intro op hop
      simp only [List.mem_singleton] at hop
      rw [hop]
      exact rfl)
    1 1 (by decide)

/-! ## C5 (amended) : tombstone visibility on the read paths -/

theorem listBooks_congr (s1 s2 : Store) (p : ListParams)
    (hrev : s1.reviews = s2.reviews)
    (hq : s1.books.filter (matchesQuery p) = s2.books.filter (matchesQuery p))
    (hact : s1.books.filter (fun b => b.isActive) = s2.books.filter (fun b => b.isActive)) :
    listBooks s1 p = listBooks s2 p := by
  simp only [listBooks, ratingFiltered, pagedFetch, hrev, hq, hact]

theorem getBook_congr (s1 s2 : Store) (caller : Option User) (id : Nat)
    (hrev : s1.reviews = s2.reviews)
    (hfind : s1.books.find? (fun b => b.id == id && b.isActive)
      = s2.books.find? (fun b => b.id == id && b.isActive)) :
    getBook s1 caller id = getBook s2 caller id := by
  unfold getBook
  rw [hrev, hfind]

/-- C5 amended: on the book listing and the single-book fetch a
soft-deleted Book is observably identical to an absent one (both
handlers query with `isActive: true`); the claim fails as a universal
statement over all read paths, because the similar-books target lookup
(`findById` with no active filter) resolves a tombstoned Book while an
absent one yields NotFound (see the counterexample), `GET /auth/me`
populates the caller's books and reviews without an active match, and
soft-deleted Reviews stay visible through book population (they still
feed `averageRating`, `reviewCount` and the rating distribution). -/
theorem c5_soft_deleted_book_like_absent_on_list_and_get :
    ∀ (users : List User) (l1 l2 : List Book) (b : Book) (reviews : List Review)
      (p : ListParams) (c : Credential) (id : Nat),
    b.isActive = false →
    listBooks ⟨users, l1 ++ b :: l2, reviews⟩ p = listBooks ⟨users, l1 ++ l2, reviews⟩ p
    ∧ getBookEndpoint ⟨users, l1 ++ b :: l2, reviews⟩ c id
        = getBookEndpoint ⟨users, l1 ++ l2, reviews⟩ c id := by
  intro users l1 l2 b reviews p c id hb
  have hqb : matchesQuery p b = false := by
    unfold matchesQuery
    rw [hb]
    simp
  have hq : (l1 ++ b :: l2).filter (matchesQuery p) = (l1 ++ l2).filter (matchesQuery p) := by
    simp [List.filter_append, List.filter_cons, hqb]
  have hact : (l1 ++ b :: l2).filter (fun bk => bk.isActive)
      = (l1 ++ l2).filter (fun bk => bk.isActive) := by
    simp [List.filter_append, List.filter_cons, hb]
  have hfind : (l1 ++ b :: l2).find? (fun bk => bk.id == id && bk.isActive)
      = (l1 ++ l2).find? (fun bk => bk.id == id && bk.isActive) := by
    rw [List.find?_append, List.find?_append]
    have hmid : (b :: l2).find? (fun bk => bk.id == id && bk.isActive)
        = l2.find? (fun bk => bk.id == id && bk.isActive) := by
      rw [List.find?_cons_of_neg]
      simp [hb]
    rw [hmid]
  constructor
  · exact listBooks_congr _ _ p rfl hq hact
  · unfold getBookEndpoint
    have hauth : authMiddleware ⟨users, l1 ++ b :: l2, reviews⟩ c
        = authMiddleware ⟨users, l1 ++ l2, reviews⟩ c := rfl
    rw [hauth]
    cases authMiddleware ⟨users, l1 ++ l2, reviews⟩ c with
    | unauthenticated m => rfl
    | ok u =>
      have hg := getBook_congr ⟨users, l1 ++ b :: l2, reviews⟩ ⟨users, l1 ++ l2, reviews⟩
        (some u) id rfl hfind
      simp only [hg]

/-- Request used by the C5 witness. -/
def c5wParams : ListParams :=
  { page := 1, limit := 12, search := none, genre := none, author := none,
    minYear := none, maxYear := none, minRating := none,
    sortBy := SortKey.createdAt, sortOrder := SortOrder.desc }

/-- The soft-deleted book of the C5 fixture. -/
def c5Tombstone : Book :=
  { id := 2, title := "Messiah", author := "Frank Herbert",
    description := "A sequel continuing the desert epic.",
    genre := "Sci-Fi", publishedYear := 1969, tags := [], addedBy := 1,
    isActive := false, createdAt := 2 }

/-- Witness for C5's amended theorem: dropping the tombstoned book 2 from
the fixture store changes neither the listing nor a single-book fetch. -/
theorem c5_soft_deleted_book_like_absent_witness :
    listBooks ⟨[uAnn], [bDune, c5Tombstone], []⟩ c5wParams
      = listBooks ⟨[uAnn], [bDune], []⟩ c5wParams :=
  (c5_soft_deleted_book_like_absent_on_list_and_get
    [uAnn] [bDune] [] c5Tombstone [] c5wParams Credential.absent 1 rfl).1

/-! ## C9 : toggleLike involution -/

theorem toggle_toggle_likes (likes : List Nat) (u : Nat) (h : likes.count u ≤ 1) :
    ((jsToggleLikes (jsToggleLikes likes u) u).length = likes.length)
    ∧ ∀ x, (x ∈ jsToggleLikes (jsToggleLikes likes u) u ↔ x ∈ likes) := by
  by_cases hc : likes.contains u = true
  · have hmem : u ∈ likes := List.elem_iff.mp hc
    have hcount1 : likes.count u = 1 := le_antisymm h (List.one_le_count_iff.mpr hmem)
    have hzero : (likes.erase u).count u = 0 := by
      rw [List.count_erase_self, hcount1]
    have hnot : u ∉ likes.erase u := List.count_eq_zero.mp hzero
    have hc2 : (likes.erase u).contains u = false := by
      rw [Bool.eq_false_iff]
      intro hx
      exact hnot (List.elem_iff.mp hx)
    have ht1 : jsToggleLikes likes u = likes.erase u := by
      unfold jsToggleLikes
      rw [if_pos hc]
    have ht2 : jsToggleLikes (likes.erase u) u = likes.erase u ++ [u] := by
      unfold jsToggleLikes
      rw [hc2]
      simp
    rw [ht1, ht2]
    constructor
    · rw [List.length_append, List.length_erase_of_mem hmem]
      have hpos : 0 < likes.length := List.length_pos_of_mem hmem
      simp
      omega
    · intro x
      rw [List.mem_append, List.mem_singleton]
      by_cases hx : x = u
      · subst hx
        simp [hmem]
      · simp [hx, List.mem_erase_of_ne hx]
  · have hmem : u ∉ likes := by
      intro hx
      exact absurd (List.elem_iff.mpr hx) (by simpa using hc)
    have ht1 : jsToggleLikes likes u = likes ++ [u] := by
      unfold jsToggleLikes
      rw [Bool.eq_false_iff.mpr hc]
      simp
    have hc2 : (likes ++ [u]).contains u = true :=
      List.elem_iff.mpr (List.mem_append_right likes (List.mem_singleton.mpr rfl))
    have ht2 : jsToggleLikes (likes ++ [u]) u = likes := by
      unfold jsToggleLikes
      rw [if_pos hc2, List.erase_append_right _ hmem, List.erase_cons_head]
      simp
    rw [ht1, ht2]
    exact ⟨rfl, fun x => Iff.rfl⟩

theorem forall₂_map_rel (R : α → α → Prop) (f : α → α) (l : List α)
    (h : ∀ x ∈ l, R (f x) x) : List.Forall₂ R (l.map f) l := by
  induction l with
  | nil => simp
  | cons a as ih =>
    simp only [List.map_cons]
    exact List.Forall₂.cons (h a (List.mem_cons_self a as))
      (ih (fun x hx => h x (List.mem_cons_of_mem a hx)))

theorem toggleUpd_id (uid rid : Nat) (rv : Review) : (toggleUpd uid rid rv).id = rv.id := by
  unfold toggleUpd
  by_cases hc : (rv.id == rid && rv.isActive) = true <;> simp [hc]

theorem toggleUpd_isActive (uid rid : Nat) (rv : Review) :
    (toggleUpd uid rid rv).isActive = rv.isActive := by
  unfold toggleUpd
  by_cases hc : (rv.id == rid && rv.isActive) = true <;> simp [hc]

theorem toggleUpd_cond (uid rid : Nat) (rv : Review) :
    ((toggleUpd uid rid rv).id == rid && (toggleUpd uid rid rv).isActive)
      = (rv.id == rid && rv.isActive) := by
  rw [toggleUpd_id, toggleUpd_isActive]

/-- C9: for every Review and user, two sequential `toggleLike` calls by
the same user leave every stored review with its original id, the
original liker membership and the original `likeCount` — like followed by
unlike (or unlike followed by like) is the identity on the liker set.
The hypothesis rules out duplicate entries of the caller in a liker
array, which the handler itself can never produce (it only pushes the id
when `indexOf` fails to find it). -/
theorem c9_toggleLike_twice_restores (s : Store) (u : User) (rid : Nat)
    (h : ∀ r ∈ s.reviews, r.likes.count u.id ≤ 1) :
    List.Forall₂ (fun r2 r => r2.id = r.id ∧ likeCount r2 = likeCount r
        ∧ ∀ x, (x ∈ r2.likes ↔ x ∈ r.likes))
      ((toggleLike (toggleLike s u rid).2 u rid).2).reviews s.reviews := by
  cases hf : s.reviews.find? (fun r => r.id == rid && r.isActive) with
  | none =>
    have h1 : (toggleLike s u rid).2 = s := by
      unfold toggleLike
      rw [hf]
    rw [h1, h1]
    exact List.forall₂_same.mpr (fun x _ => ⟨rfl, rfl, fun _ => Iff.rfl⟩)
  | some r0 =>
    have h1 : (toggleLike s u rid).2
        = { s with reviews := s.reviews.map (toggleUpd u.id rid) } := by
      unfold toggleLike
      rw [hf]
    have hf2 : (s.reviews.map (toggleUpd u.id rid)).find? (fun r => r.id == rid && r.isActive)
        = some (toggleUpd u.id rid r0) := by
      rw [find?_map_pred (fun r => r.id == rid && r.isActive) (toggleUpd u.id rid)
        (fun rv => by simp [toggleUpd_cond]) s.reviews]
      rw [hf]
      rfl
    have h2 : (toggleLike { s with reviews := s.reviews.map (toggleUpd u.id rid) } u rid).2
        = { s with reviews := (s.reviews.map (toggleUpd u.id rid)).map (toggleUpd u.id rid) } := by
      unfold toggleLike
      simp only
      rw [hf2]
    rw [h1, h2, List.map_map]
    apply forall₂_map_rel
    intro rv hrv
    by_cases hcond : (rv.id == rid && rv.isActive) = true
    · have e1 : toggleUpd u.id rid rv = { rv with likes := jsToggleLikes rv.likes u.id } := by
        unfold toggleUpd
        rw [if_pos hcond]
      have hcond2 : (({ rv with likes := jsToggleLikes rv.likes u.id } : Review).id == rid
          && ({ rv with likes := jsToggleLikes rv.likes u.id } : Review).isActive) = true := hcond
      have e2 : (toggleUpd u.id rid ∘ toggleUpd u.id rid) rv
          = { rv with likes := jsToggleLikes (jsToggleLikes rv.likes u.id) u.id } := by
        simp only [Function.comp]
        rw [e1]
        unfold toggleUpd
        rw [if_pos hcond2]
      rw [e2]
      obtain ⟨hlen, hmem⟩ := toggle_toggle_likes rv.likes u.id (h rv hrv)
      exact ⟨rfl, hlen, hmem⟩
    · have e1 : toggleUpd u.id rid rv = rv := by
        unfold toggleUpd
        rw [if_neg hcond]
      have e2 : (toggleUpd u.id rid ∘ toggleUpd u.id rid) rv = rv := by
        simp only [Function.comp]
        rw [e1, e1]
      rw [e2]
      exact ⟨rfl, rfl, fun _ => Iff.rfl⟩

/-- Store for the C9 witness: one active review liked by user 1. -/
def c9Store : Store :=
  { users := [uAnn]
    books := [bDune]
    reviews :=
      [{ id := 1, bookId := 1, userId := 2, rating := 5,
         reviewText := "Loved every page of it.", title := none, likes := [1],
         isActive := true, createdAt := 2 }] }

/-- Witness for C9: after user 1 toggles twice on review 1, the stored
review list has the original length (and, per the theorem, the original
liker sets). -/
theorem c9_toggleLike_twice_restores_witness :
    ((toggleLike (toggleLike c9Store uAnn 1).2 uAnn 1).2).reviews.length
      = c9Store.reviews.length :=
  (c9_toggleLike_twice_restores c9Store uAnn 1 (by decide)).length_eq

/-! ## C10 : the unconditional (bookId, userId) unique index -/

theorem countP_map_congr (p : α → Bool) (f : α → α) (hp : ∀ a, p (f a) = p a)
    (l : List α) : (l.map f).countP p = l.countP p := by
  induction l with
  | nil => rfl
  | cons a as ih => simp [List.countP_cons, hp a, ih]

theorem pairRecordCount_applyOp (s : Store) (op : Op) (b u : Nat) :
    (pairRecordCount (applyOp s op) b u = pairRecordCount s b u)
    ∨ (pairRecordCount s b u = 0 ∧ pairRecordCount (applyOp s op) b u = 1) := by
  cases op with
  | createBookOp u0 bid body now =>
    left
    simp only [applyOp, createBook]
    by_cases hdup : s.books.any (fun bk => bk.id == bid) = true
    · rw [if_pos hdup]
    · rw [if_neg hdup]
      rfl
  | updateBookOp u0 j body =>
    left
    simp only [applyOp]
    unfold updateBook
    cases hf : s.books.find? (fun bk => bk.id == j && bk.isActive) with
    | none => rfl
    | some bk =>
      by_cases hu : (bk.addedBy != u0.id) = true
      · simp [hu]
      · simp [hu, pairRecordCount]
  | deleteBookOp u0 j =>
    left
    simp only [applyOp]
    unfold deleteBook
    cases hf : s.books.find? (fun bk => bk.id == j && bk.isActive) with
    | none => rfl
    | some bk =>
      by_cases hu : (bk.addedBy != u0.id) = true
      · simp [hu]
      · simp only [hu, Bool.false_eq_true, if_false]
        unfold pairRecordCount
        simp only
        exact countP_map_congr _ _
          (fun r => by by_cases hb : (r.bookId == j) = true <;> simp [hb]) s.reviews
  | createReviewOp u0 rid bookId rating text title now =>
    simp only [applyOp]
    unfold createReview
    cases hf : s.books.find? (fun bk => bk.id == bookId && bk.isActive) with
    | none => left; rfl
    | some bk =>
      simp only
      cases hg : s.reviews.find? (fun r => r.bookId == bookId && r.userId == u0.id && r.isActive) with
      | some r => left; rfl
      | none =>
        simp only
        by_cases hh : s.reviews.any (fun r => r.bookId == bookId && r.userId == u0.id) = true
        · left
          rw [if_pos hh]
        · rw [if_neg hh]
          by_cases hnew : ((newReview u0 rid bookId rating text title now).bookId == b
              && (newReview u0 rid bookId rating text title now).userId == u) = true
          · right
            have hzero : s.reviews.countP (fun r => r.bookId == bookId && r.userId == u0.id) = 0 := by
              rw [List.countP_eq_zero]
              intro r hr hpr
              exact absurd (List.any_eq_true.mpr ⟨r, hr, hpr⟩) hh
            have hb2 : bookId = b := by
              have h3 := hnew
              simp only [newReview, Bool.and_eq_true, beq_iff_eq] at h3
              exact h3.1
            have hu2 : u0.id = u := by
              have h3 := hnew
              simp only [newReview, Bool.and_eq_true, beq_iff_eq] at h3
              exact h3.2
            have hzero2 : pairRecordCount s b u = 0 := by
              unfold pairRecordCount
              rw [← hb2, ← hu2]
              exact hzero
            refine ⟨hzero2, ?_⟩
            have hz3 : s.reviews.countP (fun r => r.bookId == b && r.userId == u) = 0 := hzero2
            show (s.reviews ++ [newReview u0 rid bookId rating text title now]).countP
                (fun r => r.bookId == b && r.userId == u) = 1
            rw [List.countP_append, hz3]
            simp [hnew]
          · left
            show (s.reviews ++ [newReview u0 rid bookId rating text title now]).countP
                (fun r => r.bookId == b && r.userId == u)
              = s.reviews.countP (fun r => r.bookId == b && r.userId == u)
            rw [List.countP_append]
            simp [hnew]
  | updateReviewOp u0 j rating text title =>
    left
    simp only [applyOp]
    unfold updateReview
    cases hf : s.reviews.find? (fun r => r.id == j && r.isActive) with
    | none => rfl
    | some r =>
      by_cases hu : (r.userId != u0.id) = true
      · simp [hu]
      · simp only [hu, Bool.false_eq_true, if_false]
        unfold pairRecordCount
        simp only
        exact countP_map_congr _ _
          (fun rv => by
            by_cases hc : (rv.id == j && rv.isActive) = true <;> simp [hc, applyReviewBody])
          s.reviews
  | deleteReviewOp u0 j =>
    left
    simp only [applyOp]
    unfold deleteReview
    cases hf : s.reviews.find? (fun r => r.id == j && r.isActive) with
    | none => rfl
    | some r =>
      by_cases hu : (r.userId != u0.id) = true
      · simp [hu]
      · simp only [hu, Bool.false_eq_true, if_false]
        unfold pairRecordCount
        simp only
        exact countP_map_congr _ _
          (fun rv => by
            by_cases hc : (rv.id == j && rv.isActive) = true <;> simp [hc])
          s.reviews
  | toggleLikeOp u0 j =>
    left
    simp only [applyOp]
    unfold toggleLike
    cases hf : s.reviews.find? (fun r => r.id == j && r.isActive) with
    | none => rfl
    | some r =>
      unfold pairRecordCount
      simp only
      exact countP_map_congr _ _
        (fun rv => by
          unfold toggleUpd
          by_cases hc : (rv.id == j && rv.isActive) = true <;> simp [hc])
        s.reviews

theorem pairRecordCount_applyOps (s : Store) (ops : List Op) (b u : Nat)
    (h : pairRecordCount s b u ≤ 1) :
    pairRecordCount (applyOps s ops) b u ≤ 1
    ∧ (1 ≤ pairRecordCount s b u → 1 ≤ pairRecordCount (applyOps s ops) b u) := by
  induction ops generalizing s with
  | nil => exact ⟨h, fun hp => hp⟩
  | cons op rest ih =>
    have hstep := pairRecordCount_applyOp s op b u
    have h1 : pairRecordCount (applyOp s op) b u ≤ 1 := by
      rcases hstep with he | ⟨h0, h1⟩
      · rw [he]; exact h
      · rw [h1]
    have hmono : 1 ≤ pairRecordCount s b u → 1 ≤ pairRecordCount (applyOp s op) b u := by
      intro hp
      rcases hstep with he | ⟨h0, hone⟩
      · rw [he]; exact hp
      · omega
    have hrest := ih (applyOp s op) h1
    exact ⟨hrest.1, fun hp => hrest.2 (hmono hp)⟩

/-- C10: the unique `(bookId, userId)` index of `reviewSchema` is
unconditional on the soft-delete flag and no operation ever removes a
review record, so a store holding at most one review record per pair
keeps that bound under every sequence of API operations, an existing
record (active or tombstoned) never disappears, and while a record for a
pair exists — soft-deleted or not — `createReview` for that pair never
inserts: the store is returned unchanged and no created review is ever
reported. -/
theorem c10_pair_record_unique_forever (s : Store) (ops : List Op) (bId uId : Nat)
    (h : pairRecordCount s bId uId ≤ 1) :
    pairRecordCount (applyOps s ops) bId uId ≤ 1
    ∧ (1 ≤ pairRecordCount s bId uId → 1 ≤ pairRecordCount (applyOps s ops) bId uId)
    ∧ (1 ≤ pairRecordCount s bId uId →
        ∀ (u : User) (rid rating now : Nat) (text : String) (title : Option String),
          u.id = uId →
          (createReview s u rid bId rating text title now).2 = s
          ∧ ∀ r, (createReview s u rid bId rating text title now).1
              ≠ CreateReviewResult.created r) := by
  obtain ⟨hle, hmono⟩ := pairRecordCount_applyOps s ops bId uId h
  refine ⟨hle, hmono, ?_⟩
  intro hpos u rid rating now text title hu
  have hex : ∃ r ∈ s.reviews, (r.bookId == bId && r.userId == u.id) = true := by
    have hcp : 0 < s.reviews.countP (fun r => r.bookId == bId && r.userId == uId) := hpos
    obtain ⟨r, hr, hpr⟩ := List.countP_pos_iff.mp hcp
    exact ⟨r, hr, by rw [hu]; exact hpr⟩
  have hany : s.reviews.any (fun r => r.bookId == bId && r.userId == u.id) = true :=
    List.any_eq_true.mpr hex
  unfold createReview
  cases hf : s.books.find? (fun bk => bk.id == bId && bk.isActive) with
  | none => exact ⟨rfl, fun r hr => by simp at hr⟩
  | some bk =>
    simp only
    cases hg : s.reviews.find? (fun r => r.bookId == bId && r.userId == u.id && r.isActive) with
    | some r0 => exact ⟨rfl, fun r hr => by simp at hr⟩
    | none =>
      simp only
      rw [if_pos hany]
      exact ⟨rfl, fun r hr => by simp at hr⟩

/-- Store for the C10 witness: a single (soft-deleted) record for the
pair (book 1, user 1). -/
def c10Store : Store :=
  { users := [uAnn]
    books := [bDune]
    reviews :=
      [{ id := 1, bookId := 1, userId := 1, rating := 2,
         reviewText := "I changed my mind about this.", title := none,
         likes := [], isActive := false, createdAt := 2 }] }

/-- Witness for C10: after a create attempt for the occupied pair, the
store still holds at most (and exactly) one record for it. -/
theorem c10_pair_record_unique_forever_witness :
    pairRecordCount
      (applyOps c10Store [Op.createReviewOp uAnn 9 1 4 "Trying to review again." none 5]) 1 1 ≤ 1 :=
  (c10_pair_record_unique_forever c10Store
    [Op.createReviewOp uAnn 9 1 4 "Trying to review again." none 5] 1 1 (by decide)).1
